import Mathlib

/-!
Verification of the PostgreSQL-to-Snowflake migration backend.

Shallow embedding of `src/backend` (data_pipeline.py, migrator.py, main.py,
logger.py, snowflake_generator.py, postgres_analyzer.py).  External effects
(database cursors, the Snowflake connection, the wall clock) are passed in as
explicit oracles; wall-clock durations are modeled as 0.  Python strings are
modeled as Lean `String` over their character data; the ASCII fragment of
Python's `str.upper` / `str.lower` / `str.isalnum` is used, which agrees with
Python on the ASCII identifiers and messages handled here.
-/

/-- Python `os.path.basename` for forward-slash paths: the part of the path
after the last `/` (the whole string when there is no `/`). -/
def basename (s : String) : String :=
  String.mk ((s.data.reverse.takeWhile (fun c => c ≠ '/')).reverse)

/-- Result dictionary built by `SnowflakeLoader.copy_into_table` /
`SnowflakeLoader.load_table` (data_pipeline.py:339-356, 373-380). -/
structure LoadResult where
  table : String
  file : String
  rows_loaded : Nat
  duration_ms : Nat
  status : String
  error : Option String
  deriving DecidableEq, Repr

/-- Run-local loader state: `self.loaded_files` of `SnowflakeLoader`
(data_pipeline.py:228), the set of staged basenames whose COPY succeeded. -/
structure LoaderState where
  loadedFiles : List String
  deriving DecidableEq, Repr

/-- `SnowflakeLoader.copy_into_table` (data_pipeline.py:299-356).  The COPY
INTO execution on the warehouse is an external effect, modeled by `outcome`:
`.ok rows` is a normal return of the cursor (rows summed over `LOADED` result
rows), `.error e` is an exception from `cursor.execute`.  The body catches
every exception and returns a `failed` record, so the tenacity `@retry`
wrapper never observes an exception and never re-invokes the body; a single
outcome therefore models the call, retries included.  Durations are 0. -/
def copy_into_table (outcome : Except String Nat) (schema table : String)
    (file_pattern : String) : LoadResult :=
  match outcome with
  | .ok rows =>
      { table := schema ++ "." ++ table, file := file_pattern, rows_loaded := rows,
        duration_ms := 0, status := "success", error := none }
  | .error e =>
      { table := schema ++ "." ++ table, file := file_pattern, rows_loaded := 0,
        duration_ms := 0, status := "failed", error := some e }

/-- Upload loop of `SnowflakeLoader.load_table` (data_pipeline.py:366-380):
each file is PUT to the stage; on success the staged basename is collected,
on failure (after retry exhaustion, modeled by the oracle `upOk`) an
`upload_failed` record is appended.  Returns (staged basenames, failure
records), both in iteration order. -/
def uploadPhase (upOk : String → Except String Unit) (schema table : String) :
    List String → List String × List LoadResult
  | [] => ([], [])
  | p :: rest =>
      let (ups, fails) := uploadPhase upOk schema table rest
      match upOk p with
      | .ok _ => (basename p :: ups, fails)
      | .error e =>
          (ups, { table := schema ++ "." ++ table, file := basename p, rows_loaded := 0,
                  duration_ms := 0, status := "upload_failed", error := some e } :: fails)

/-- COPY loop of `SnowflakeLoader.load_table` (data_pipeline.py:383-396):
skip a staged file already in `loaded_files`; otherwise COPY it, record the
result, and add the file to `loaded_files` only when the COPY succeeded. -/
def loadCopyLoop (copyOk : String → Except String Nat) (schema table : String) :
    List String → LoaderState → LoaderState × List LoadResult
  | [], st => (st, [])
  | f :: rest, st =>
      if f ∈ st.loadedFiles then
        loadCopyLoop copyOk schema table rest st
      else
        let r := copy_into_table (copyOk f) schema table f
        let st1 := if r.status = "success" then ⟨f :: st.loadedFiles⟩ else st
        let (st2, rs) := loadCopyLoop copyOk schema table rest st1
        (st2, r :: rs)

/-- `SnowflakeLoader.load_table` (data_pipeline.py:358-398): upload all files,
then COPY each staged file with the idempotency skip. -/
def load_table (upOk : String → Except String Unit) (copyOk : String → Except String Nat)
    (schema table : String) (file_paths : List String) (st : LoaderState) :
    LoaderState × List LoadResult :=
  let (uploaded, upFails) := uploadPhase upOk schema table file_paths
  let (st1, copyResults) := loadCopyLoop copyOk schema table uploaded st
  (st1, upFails ++ copyResults)

/-- Per-table result dictionary of `MigrationPipeline.migrate_table`
(data_pipeline.py:435-452).  The exception branch omits the row/file keys,
modeled with `none` / `[]`. -/
structure TableResult where
  schema : String
  table : String
  status : String
  rows_loaded : Option Nat
  file_count : Option Nat
  load_results : List LoadResult
  error : Option String
  deriving DecidableEq, Repr

/-- `MigrationPipeline.migrate_table` (data_pipeline.py:415-452).  Extraction
is an external effect modeled by `extractOut` (`.ok paths` returns the chunk
file paths, `.error e` is a raised exception).  When no exception escapes,
the aggregate status is `completed` regardless of per-file load results. -/
def migrate_table (extractOut : Except String (List String))
    (upOk : String → Except String Unit) (copyOk : String → Except String Nat)
    (schema table : String) (st : LoaderState) : LoaderState × TableResult :=
  match extractOut with
  | .error e =>
      (st, { schema := schema, table := table, status := "failed",
             rows_loaded := none, file_count := none, load_results := [], error := some e })
  | .ok file_paths =>
      let (st1, load_results) := load_table upOk copyOk schema table file_paths st
      (st1, { schema := schema, table := table, status := "completed",
              rows_loaded := some ((load_results.map (fun r => r.rows_loaded)).sum),
              file_count := some file_paths.length,
              load_results := load_results, error := none })

/-- Number of success records for staged file `f` in a result list. -/
def countSuccess (rs : List LoadResult) (f : String) : Nat :=
  (rs.filter (fun r => r.file = f ∧ r.status = "success")).length

-- Helper lemmas about the loader loops.

theorem uploadPhase_mem_ok (upOk : String → Except String Unit) (schema table : String)
    (paths : List String) (p : String) (hp : p ∈ paths) (hok : upOk p = .ok ()) :
    basename p ∈ (uploadPhase upOk schema table paths).1 := by
  induction paths with
  | nil => cases hp
  | cons q rest ih =>
      simp only [uploadPhase]
      rcases List.mem_cons.mp hp with h | h
      · subst h
        rw [hok]
        exact List.mem_cons_self _ _
      · cases hq : upOk q with
        | ok u => cases u; exact List.mem_cons_of_mem _ (ih h)
        | error e => exact ih h

theorem loadCopyLoop_failed_mem (copyOk : String → Except String Nat)
    (schema table : String) (files : List String) (st : LoaderState) (f : String) (e : String)
    (hf : f ∈ files) (hnot : f ∉ st.loadedFiles) (herr : copyOk f = .error e) :
    ∃ r ∈ (loadCopyLoop copyOk schema table files st).2,
      r.file = f ∧ r.status = "failed" ∧ r.error = some e := by
  induction files generalizing st with
  | nil => cases hf
  | cons g rest ih =>
      rcases List.mem_cons.mp hf with h | h
      · subst h
        simp only [loadCopyLoop, if_neg hnot, herr, copy_into_table]
        refine ⟨_, List.mem_cons_self _ _, rfl, rfl, rfl⟩
      · by_cases hg : g ∈ st.loadedFiles
        · simp only [loadCopyLoop, if_pos hg]
          exact ih st h hnot
        · simp only [loadCopyLoop, if_neg hg]
          by_cases hfg : f = g
          · subst hfg
            rw [herr]
            simp only [copy_into_table]
            refine ⟨_, List.mem_cons_self _ _, rfl, rfl, rfl⟩
          · set st1 := if (copy_into_table (copyOk g) schema table g).status = "success" then
                (⟨g :: st.loadedFiles⟩ : LoaderState) else st with hst1
            have hnot1 : f ∉ st1.loadedFiles := by
              rw [hst1]
              split
              · intro hmem
                rcases List.mem_cons.mp hmem with h1 | h1
                · exact hfg h1
                · exact hnot h1
              · exact hnot
            rcases ih st1 h hnot1 with ⟨r, hr, hprops⟩
            exact ⟨r, List.mem_cons_of_mem _ hr, hprops⟩

/-- Claim C1 (counterexample): a single staged file whose COPY INTO fails
after retry exhaustion yields a per-file load result with status `failed`,
yet `migrate_table` reports the aggregate table status `completed`, not
`FAILED`: the claimed aggregate `FAILED` status does not occur. -/
theorem claimC1_counterexample :
    ((migrate_table (.ok ["/tmp/s_t_chunk_0001.csv.gz"]) (fun _ => .ok ())
        (fun _ => .error "copy failed") "s" "t" ⟨[]⟩).2.load_results.map
          (fun r => r.status)) = ["failed"] ∧
    (migrate_table (.ok ["/tmp/s_t_chunk_0001.csv.gz"]) (fun _ => .ok ())
        (fun _ => .error "copy failed") "s" "t" ⟨[]⟩).2.status = "completed" := by
  constructor <;> rfl

/-- Claim C1 (amended): if the COPY INTO for one of a table's staged files
fails after retry exhaustion, the per-file load result for that file has the
`failed` status, but the table's aggregate result status remains `completed`:
per-file COPY failures do not propagate to the table aggregate (which is
`failed` only when extraction or another exception escapes). -/
theorem claimC1 (extracted : List String) (upOk : String → Except String Unit)
    (copyOk : String → Except String Nat) (schema table p e : String)
    (st : LoaderState) (hp : p ∈ extracted) (hup : upOk p = .ok ())
    (hcopy : copyOk (basename p) = .error e) (hnew : basename p ∉ st.loadedFiles) :
    (∃ r ∈ (migrate_table (.ok extracted) upOk copyOk schema table st).2.load_results,
        r.file = basename p ∧ r.status = "failed" ∧ r.error = some e) ∧
    (migrate_table (.ok extracted) upOk copyOk schema table st).2.status = "completed" := by
  constructor
  · have hmem := uploadPhase_mem_ok upOk schema table extracted p hp hup
    have hfail := loadCopyLoop_failed_mem copyOk schema table
      (uploadPhase upOk schema table extracted).1 st (basename p) e hmem hnew hcopy
    rcases hfail with ⟨r, hr, hprops⟩
    refine ⟨r, ?_, hprops⟩
    simp only [migrate_table, load_table]
    exact List.mem_append.mpr (Or.inr hr)
  · rfl

/-- Claim C1 witness: the amended theorem at a concrete failing COPY. -/
theorem claimC1_witness :
    (∃ r ∈ (migrate_table (.ok ["/tmp/a.csv.gz"]) (fun _ => .ok ())
        (fun _ => .error "boom") "s" "t" ⟨[]⟩).2.load_results,
        r.file = basename "/tmp/a.csv.gz" ∧ r.status = "failed" ∧ r.error = some "boom") ∧
    (migrate_table (.ok ["/tmp/a.csv.gz"]) (fun _ => .ok ())
        (fun _ => .error "boom") "s" "t" ⟨[]⟩).2.status = "completed" :=
  claimC1 ["/tmp/a.csv.gz"] (fun _ => .ok ()) (fun _ => .error "boom") "s" "t"
    "/tmp/a.csv.gz" "boom" ⟨[]⟩ (List.mem_singleton.mpr rfl) rfl rfl (by decide)

/-- Claim C2: within one run, loading the same staged file twice records
exactly one success.  The first `load_table` call COPYs the file, records one
success and adds the staged basename to `loaded_files`; the second call skips
the COPY for that basename and records nothing at all. -/
theorem claimC2 (upOk : String → Except String Unit) (copyOk : String → Except String Nat)
    (schema table p : String) (n : Nat) (st : LoaderState)
    (hup : upOk p = .ok ()) (hcopy : copyOk (basename p) = .ok n)
    (hnew : basename p ∉ st.loadedFiles) :
    countSuccess (load_table upOk copyOk schema table [p] st).2 (basename p) = 1 ∧
    (load_table upOk copyOk schema table [p]
        (load_table upOk copyOk schema table [p] st).1).2 = [] ∧
    countSuccess ((load_table upOk copyOk schema table [p] st).2 ++
        (load_table upOk copyOk schema table [p]
          (load_table upOk copyOk schema table [p] st).1).2) (basename p) = 1 := by
  have h1 : load_table upOk copyOk schema table [p] st =
      (⟨basename p :: st.loadedFiles⟩,
        [copy_into_table (.ok n) schema table (basename p)]) := by
    simp only [load_table, uploadPhase, hup, loadCopyLoop, if_neg hnew, hcopy,
      copy_into_table]
    rfl
  have h2 : load_table upOk copyOk schema table [p]
      (⟨basename p :: st.loadedFiles⟩ : LoaderState) =
      (⟨basename p :: st.loadedFiles⟩, []) := by
    simp only [load_table, uploadPhase, hup, loadCopyLoop]
    rw [if_pos (List.mem_cons_self _ _)]
    rfl
  rw [h1]
  constructor
  · simp [countSuccess, copy_into_table]
  · rw [h2]
    constructor
    · rfl
    · simp [countSuccess, copy_into_table]

/-- Claim C2 witness: the idempotency theorem at a concrete staged file. -/
theorem claimC2_witness :
    countSuccess (load_table (fun _ => .ok ()) (fun _ => .ok 5) "s" "t"
        ["/tmp/f1.csv.gz"] ⟨[]⟩).2 (basename "/tmp/f1.csv.gz") = 1 ∧
    (load_table (fun _ => .ok ()) (fun _ => .ok 5) "s" "t" ["/tmp/f1.csv.gz"]
        (load_table (fun _ => .ok ()) (fun _ => .ok 5) "s" "t"
          ["/tmp/f1.csv.gz"] ⟨[]⟩).1).2 = [] ∧
    countSuccess ((load_table (fun _ => .ok ()) (fun _ => .ok 5) "s" "t"
        ["/tmp/f1.csv.gz"] ⟨[]⟩).2 ++
      (load_table (fun _ => .ok ()) (fun _ => .ok 5) "s" "t" ["/tmp/f1.csv.gz"]
        (load_table (fun _ => .ok ()) (fun _ => .ok 5) "s" "t"
          ["/tmp/f1.csv.gz"] ⟨[]⟩).1).2) (basename "/tmp/f1.csv.gz") = 1 :=
  claimC2 (fun _ => .ok ()) (fun _ => .ok 5) "s" "t" "/tmp/f1.csv.gz" 5 ⟨[]⟩
    rfl rfl (by decide)

-- §Analyzer data model (src/backend/postgres_analyzer.py)

/-- Column record of the analyzer (postgres_analyzer.py), with the fields the
generator and the compatibility assessment read. -/
structure PGColumn where
  column_name : String
  data_type : String
  udt_name : String
  character_maximum_length : Option Nat
  numeric_precision : Option Nat
  numeric_scale : Option Nat
  is_nullable : String
  is_identity : String
  identity_start : Option Nat
  identity_increment : Option Nat
  serial_sequence : Option String
  column_default : Option String
  column_comment : Option String
  deriving DecidableEq, Repr

structure KeyConstraint where
  constraint_name : String
  columns : List String
  deriving DecidableEq, Repr

structure ForeignKey where
  constraint_name : String
  foreign_table_schema : String
  foreign_table_name : String
  foreign_column_name : String
  deriving DecidableEq, Repr

structure TableConstraints where
  primary_keys : List KeyConstraint
  unique_keys : List KeyConstraint
  foreign_keys : List ForeignKey
  deriving DecidableEq, Repr

structure TableMetadata where
  total_size_bytes : Nat
  table_comment : Option String
  deriving DecidableEq, Repr

structure TriggerDetail where
  trigger_name : String
  deriving DecidableEq, Repr

structure TableDetail where
  table_name : String
  table_metadata : TableMetadata
  columns : List PGColumn
  constraints : TableConstraints
  triggers : List TriggerDetail
  deriving DecidableEq, Repr

structure PGSequence where
  sequence_name : String
  start_value : Option Nat
  increment : Option Nat
  deriving DecidableEq, Repr

structure ViewDetail where
  view_name : String
  view_definition : String
  deriving DecidableEq, Repr

structure FunctionDetail where
  function_name : String
  routine_type : String
  deriving DecidableEq, Repr

structure SchemaDetail where
  schema_name : String
  tables : List TableDetail
  sequences : List PGSequence
  views : List ViewDetail
  functions : List FunctionDetail
  deriving DecidableEq, Repr

structure AnalysisMeta where
  analysis_timestamp : String
  database : String
  deriving DecidableEq, Repr

structure AnalysisResults where
  metadata : AnalysisMeta
  schemas : List SchemaDetail
  deriving DecidableEq, Repr

-- §Orchestrator (src/backend/migrator.py, src/backend/main.py)

/-- `MigrationStatus` enum (models.py:91-101). -/
inductive MigrationStatus where
  | pending
  | analyzing
  | planning
  | awaiting_confirmation
  | executing
  | validating
  | completed
  | failed
  | cancelled
  deriving DecidableEq, Repr

/-- Work performed against external systems during `execute`
(migrator.py:290-332): DDL execution and the extract/load pipeline. -/
inductive OrchAction where
  | executeDDL
  | extractLoad
  deriving DecidableEq, Repr

/-- Orchestrator state: `self.status`, `self.analysis_results` and
`self.migration_results` of `MigrationOrchestrator` (migrator.py:35-37), plus
the history of every assignment to `self.status` and the external actions
performed, recorded so that phase-ordering claims can be stated. -/
structure OrchSt where
  status : MigrationStatus
  statusHistory : List MigrationStatus
  analysis_results : Option AnalysisResults
  migration_results : List TableResult
  actions : List OrchAction
  deriving DecidableEq, Repr

/-- Fresh orchestrator (migrator.py:25-39): status starts at `PENDING`,
`analysis_results` is `None`. -/
def initOrch : OrchSt :=
  { status := .pending, statusHistory := [.pending], analysis_results := none,
    migration_results := [], actions := [] }

/-- An assignment `self.status = s`, recorded in the history. -/
def setStatus (st : OrchSt) (s : MigrationStatus) : OrchSt :=
  { st with status := s, statusHistory := st.statusHistory ++ [s] }

/-- `MigrationOrchestrator.analyze` (migrator.py:114-136): sets `ANALYZING`
and stores the analyzer's results in `self.analysis_results`; on an analyzer
exception (oracle `none`) sets `FAILED` and re-raises (the `.error`
branch). -/
def analyze (analysisOut : Option AnalysisResults) (st : OrchSt) :
    Except OrchSt OrchSt :=
  let st1 := setStatus st .analyzing
  match analysisOut with
  | some a => .ok { st1 with analysis_results := some a }
  | none => .error (setStatus st1 .failed)

/-- `MigrationOrchestrator.plan` (migrator.py:138-210): sets `PLANNING`;
raises `ValueError` when `analysis_results` is missing, and artifact
generation may raise (oracle `planOk`) — either exception is caught, sets
`FAILED` and re-raises; on success sets `AWAITING_CONFIRMATION`. -/
def plan (planOk : Bool) (st : OrchSt) : Except OrchSt OrchSt :=
  let st1 := setStatus st .planning
  if st.analysis_results.isSome && planOk then .ok (setStatus st1 .awaiting_confirmation)
  else .error (setStatus st1 .failed)

/-- `MigrationOrchestrator.execute` (migrator.py:290-332): sets `EXECUTING`;
raises `ValueError` when `analysis_results` is missing (caught, `FAILED`),
else executes the DDL script, then migrates all schemas, extending
`migration_results` with the per-table results (an oracle here).  A DDL
failure sets `FAILED` and re-raises. -/
def execute (ddlOk : Bool) (results : List TableResult) (st : OrchSt) :
    Except OrchSt OrchSt :=
  let st1 := setStatus st .executing
  if st.analysis_results.isNone then .error (setStatus st1 .failed)
  else
    let st2 := { st1 with actions := st1.actions ++ [OrchAction.executeDDL] }
    if ddlOk then
      .ok { st2 with actions := st2.actions ++ [OrchAction.extractLoad],
                     migration_results := st2.migration_results ++ results }
    else .error (setStatus st2 .failed)

/-- `MigrationOrchestrator.validate` (migrator.py:363-408): sets
`VALIDATING`; validation exceptions are swallowed and never change the run
status. -/
def validate (st : OrchSt) : OrchSt :=
  setStatus st .validating

/-- Count of migration results with status `failed` (migrator.py:431). -/
def countFailed (results : List TableResult) : Nat :=
  (results.filter (fun r => r.status = "failed")).length

/-- `MigrationOrchestrator.finalize` (migrator.py:410-443): first builds the
summary via `ReportGenerator.generate_summary_markdown`, which dereferences
`analysis['metadata']` (validation.py:354-358) and raises `TypeError` when
`analysis_results` is `None` — the `except` clause logs and re-raises, so
the status assignment at migrator.py:431-435 is never reached and the state
is unchanged (`.error st`).  With analysis results present the summary is a
pure rendering of the record fields and the log write succeeds, and the
status is then unconditionally set to `COMPLETED` when no migration result
is `failed` and to `FAILED` otherwise — regardless of the current status. -/
def finalize (st : OrchSt) : Except OrchSt OrchSt :=
  match st.analysis_results with
  | none => .error st
  | some _ =>
      .ok (setStatus st (if countFailed st.migration_results = 0 then .completed
                         else .failed))

/-- `cancel_migration` endpoint (main.py:238-255): unconditionally sets
`self.status = CANCELLED`, whatever the current status. -/
def cancel_migration (st : OrchSt) : OrchSt :=
  setStatus st .cancelled

/-- The orchestrator object's state after a method call, whether the call
returned normally or raised: the Python object is the same either way. -/
def afterCall (r : Except OrchSt OrchSt) : OrchSt :=
  match r with
  | .ok st => st
  | .error st => st

/-- `MigrationOrchestrator.run_complete` (migrator.py:445-503): analyze,
plan, then — dry run: set `COMPLETED` and finalize; confirmed: execute,
validate, finalize; otherwise stop awaiting confirmation.  The surrounding
`try` catches any escaped exception, sets `FAILED`, saves the log and
re-raises; the returned state is the orchestrator object's final state. -/
def run_complete (dryRun confirm : Bool) (analysisOut : Option AnalysisResults)
    (planOk ddlOk : Bool) (results : List TableResult) (st : OrchSt) : OrchSt :=
  let body : Except OrchSt OrchSt :=
    match analyze analysisOut st with
    | .error stE => .error stE
    | .ok st1 =>
        match plan planOk st1 with
        | .error stE => .error stE
        | .ok st2 =>
            if dryRun then finalize (setStatus st2 .completed)
            else if confirm then
              match execute ddlOk results st2 with
              | .error stE => .error stE
              | .ok st3 => finalize (validate st3)
            else .ok st2
  match body with
  | .ok stF => stF
  | .error stE => setStatus stE .failed

/-- Total rows loaded as summed by `run_complete` (migrator.py:495):
`sum(r.get('rows_loaded', 0) ...)`. -/
def totalRows (st : OrchSt) : Nat :=
  (st.migration_results.map (fun r => r.rows_loaded.getD 0)).sum

/-- A small concrete analysis result — one schema `s1` with one table `t1`
of a single integer column — standing for any run whose analyze phase
succeeded. -/
def sampleAnalysis : AnalysisResults :=
  { metadata := { analysis_timestamp := "2025-01-01T00:00:00", database := "appdb" },
    schemas := [{ schema_name := "s1",
                  tables := [{ table_name := "t1",
                               table_metadata := { total_size_bytes := 0,
                                                   table_comment := none },
                               columns := [{ column_name := "id",
                                             data_type := "integer",
                                             udt_name := "int4",
                                             character_maximum_length := none,
                                             numeric_precision := some 32,
                                             numeric_scale := some 0,
                                             is_nullable := "NO", is_identity := "NO",
                                             identity_start := none,
                                             identity_increment := none,
                                             serial_sequence := none,
                                             column_default := none,
                                             column_comment := none }],
                               constraints := { primary_keys := [], unique_keys := [],
                                                foreign_keys := [] },
                               triggers := [] }],
                  sequences := [], views := [], functions := [] }] }

/-- Claim C3 (counterexample): on a run whose analyze and plan phases
succeeded, `cancel` sets the terminal `CANCELLED` — yet the `finalize` step
that the run still executes overwrites it with `COMPLETED`:
`analysis_results` is present, so `generate_summary_markdown` succeeds and
the unguarded status assignment at migrator.py:431-435 runs. -/
theorem claimC3_counterexample :
    (cancel_migration (afterCall (plan true (afterCall (analyze (some sampleAnalysis)
        initOrch))))).status = MigrationStatus.cancelled ∧
    (afterCall (finalize (cancel_migration (afterCall (plan true (afterCall
        (analyze (some sampleAnalysis) initOrch))))))).status =
      MigrationStatus.completed ∧
    MigrationStatus.completed ≠ MigrationStatus.cancelled := by
  refine ⟨rfl, rfl, by decide⟩

/-- Claim C3 (amended): the terminal states `COMPLETED`, `FAILED`,
`CANCELLED` are not absorbing on any run whose analysis completed.
`cancel_migration` unconditionally sets `CANCELLED` from any status
(including `COMPLETED` and `FAILED`).  `finalize` raises before touching the
status when `analysis_results` is absent (fresh orchestrator), but whenever
analysis results are present — as on every run past a successful analyze —
it unconditionally overwrites the status, `CANCELLED` included, with
`COMPLETED` (no failed tables) or `FAILED`. -/
theorem claimC3 :
    (∀ st : OrchSt, (cancel_migration st).status = MigrationStatus.cancelled) ∧
    (∀ st : OrchSt, st.analysis_results = none → finalize st = .error st) ∧
    (∀ (st : OrchSt) (a : AnalysisResults), st.analysis_results = some a →
      (afterCall (finalize st)).status =
        (if countFailed st.migration_results = 0 then MigrationStatus.completed
         else MigrationStatus.failed)) ∧
    (∀ (st : OrchSt) (a : AnalysisResults),
      st.analysis_results = some a → st.migration_results = [] →
      (afterCall (finalize (cancel_migration st))).status = MigrationStatus.completed ∧
      (afterCall (finalize (cancel_migration st))).status ≠ MigrationStatus.cancelled) := by
  refine ⟨fun st => rfl, fun st h => ?_, fun st a h => ?_, fun st a h hres => ?_⟩
  · simp [finalize, h]
  · simp [finalize, h, afterCall, setStatus]
  · constructor
    · simp [finalize, cancel_migration, setStatus, afterCall, countFailed, h, hres]
    · simp [finalize, cancel_migration, setStatus, afterCall, countFailed, h, hres]

/-- Claim C3 witness: the amended statement at concrete inputs — on the
fresh orchestrator `finalize` raises with the state unchanged, and on the
analyzed-planned-cancelled run it overwrites `CANCELLED` with `COMPLETED`. -/
theorem claimC3_witness :
    (cancel_migration initOrch).status = MigrationStatus.cancelled ∧
    finalize initOrch = .error initOrch ∧
    (afterCall (finalize (cancel_migration (afterCall (plan true (afterCall
        (analyze (some sampleAnalysis) initOrch))))))).status =
      MigrationStatus.completed ∧
    (afterCall (finalize (cancel_migration (afterCall (plan true (afterCall
        (analyze (some sampleAnalysis) initOrch))))))).status ≠
      MigrationStatus.cancelled :=
  ⟨claimC3.1 initOrch, claimC3.2.1 initOrch rfl,
   (claimC3.2.2.2 (afterCall (plan true (afterCall (analyze (some sampleAnalysis)
       initOrch)))) sampleAnalysis rfl rfl).1,
   (claimC3.2.2.2 (afterCall (plan true (afterCall (analyze (some sampleAnalysis)
       initOrch)))) sampleAnalysis rfl rfl).2⟩

/-- Claim C8 (counterexample): on a dry run with `confirm = true` over a
populated analysis, the status assigned immediately after `PLANNING` is
`AWAITING_CONFIRMATION`, not the terminal `COMPLETED`: the full assignment
history is `PENDING, ANALYZING, PLANNING, AWAITING_CONFIRMATION, COMPLETED,
COMPLETED`, so the run does not go from `PLANNING` (directly) to `COMPLETED`
as claimed. -/
theorem claimC8_counterexample :
    (run_complete true true (some sampleAnalysis) true true [] initOrch).statusHistory =
      [MigrationStatus.pending, MigrationStatus.analyzing, MigrationStatus.planning,
       MigrationStatus.awaiting_confirmation, MigrationStatus.completed,
       MigrationStatus.completed] ∧
    (run_complete true true (some sampleAnalysis) true true [] initOrch).statusHistory ≠
      [MigrationStatus.pending, MigrationStatus.analyzing, MigrationStatus.planning,
       MigrationStatus.completed, MigrationStatus.completed] := by
  constructor
  · rfl
  · decide

/-- Claim C8 (amended): for every dry run request (`dry_run = true`) over
any successfully analyzed model, regardless of `confirm` and of the
execute-phase oracles, no DDL execution and no extract/load is performed,
the total rows loaded is 0, the final status is the terminal `COMPLETED` —
but the status passes through `AWAITING_CONFIRMATION` (set at the end of
planning) between `PLANNING` and `COMPLETED` rather than going there
directly. -/
theorem claimC8 (confirm ddlOk : Bool) (a : AnalysisResults)
    (results : List TableResult) :
    (run_complete true confirm (some a) true ddlOk results initOrch).actions = [] ∧
    (run_complete true confirm (some a) true ddlOk results initOrch).status =
      MigrationStatus.completed ∧
    totalRows (run_complete true confirm (some a) true ddlOk results initOrch) = 0 ∧
    (run_complete true confirm (some a) true ddlOk results initOrch).statusHistory =
      [MigrationStatus.pending, MigrationStatus.analyzing, MigrationStatus.planning,
       MigrationStatus.awaiting_confirmation, MigrationStatus.completed,
       MigrationStatus.completed] := by
  refine ⟨rfl, rfl, rfl, rfl⟩

-- §Extractor (src/backend/data_pipeline.py, DataExtractor)

/-- Python format `f"{n:04d}"`: decimal digits, zero-padded on the left to a
minimum width of 4. -/
def pad4 (n : Nat) : String :=
  let s := Nat.repr n
  if s.length < 4 then String.mk (List.replicate (4 - s.length) '0') ++ s else s

/-- Chunk file path produced by `DataExtractor.extract_table_to_csv`
(data_pipeline.py:90-93): `os.path.join(temp_path,
f"{schema}_{table}_chunk_{chunk_num:04d}.csv.gz")`. -/
def chunkFileName (temp_path schema table : String) (n : Nat) : String :=
  temp_path ++ "/" ++ schema ++ "_" ++ table ++ "_chunk_" ++ pad4 n ++ ".csv.gz"

/-- Cursor loop of `DataExtractor.extract_table_to_csv`
(data_pipeline.py:80-141).  `k` is `chunk_num` (chunks started so far), the
`Option` is the current buffer (`None` between chunks); a row appended to the
buffer models the CSV-encoded line written to the `StringIO`; a full buffer
(`rows_in_chunk >= chunk_size`) is gzipped out and the file path collected,
and a final nonempty buffer is always flushed when the cursor ends.  Rows
are kept abstract: chunk boundaries and file names do not depend on the
encoded content. -/
def extractCSVLoop {α : Type} (temp_path schema table : String) (c : Nat) :
    List α → Nat → Option (List α) → List String
  | [], _, none => []
  | [], k, some b =>
      if 0 < b.length then [chunkFileName temp_path schema table k] else []
  | r :: rest, k, none =>
      let b := [r]
      if c ≤ b.length then
        chunkFileName temp_path schema table (k + 1) ::
          extractCSVLoop temp_path schema table c rest (k + 1) none
      else extractCSVLoop temp_path schema table c rest (k + 1) (some b)
  | r :: rest, k, some b =>
      let b1 := b ++ [r]
      if c ≤ b1.length then
        chunkFileName temp_path schema table k ::
          extractCSVLoop temp_path schema table c rest k none
      else extractCSVLoop temp_path schema table c rest k (some b1)

/-- `DataExtractor.extract_table_to_csv` (data_pipeline.py:63-148) over the
rows yielded by the server-side cursor: returns the produced chunk file
paths in order. -/
def extract_table_to_csv {α : Type} (temp_path schema table : String) (c : Nat)
    (rows : List α) : List String :=
  extractCSVLoop temp_path schema table c rows 0 none

theorem cons_range_map {β : Type} (g : Nat → β) (n : Nat) :
    g 0 :: (List.range n).map (fun i => g (i + 1)) = (List.range (n + 1)).map g := by
  rw [List.range_succ_eq_map, List.map_cons, List.map_map]
  refine congrArg₂ List.cons rfl (List.map_congr_left fun i _ => ?_)
  simp [Function.comp, Nat.succ_eq_add_one]

theorem extractCSVLoop_spec {α : Type} (temp_path schema table : String) (c : Nat)
    (hc : 0 < c) (rows : List α) :
    (∀ k, extractCSVLoop temp_path schema table c rows k none =
      (List.range ((rows.length + c - 1) / c)).map
        (fun i => chunkFileName temp_path schema table (k + 1 + i))) ∧
    (∀ k (b : List α), 0 < b.length → b.length < c →
      extractCSVLoop temp_path schema table c rows k (some b) =
        (List.range ((b.length + rows.length + c - 1) / c)).map
          (fun i => chunkFileName temp_path schema table (k + i))) := by
  induction rows with
  | nil =>
      constructor
      · intro k
        have h0 : (List.length ([] : List α) + c - 1) / c = 0 := by
          simp only [List.length_nil, Nat.zero_add]
          exact Nat.div_eq_of_lt (by omega)
        rw [h0]
        rfl
      · intro k b hb hbc
        have h1 : (b.length + List.length ([] : List α) + c - 1) / c = 1 := by
          simp only [List.length_nil, Nat.add_zero]
          have he : b.length + c - 1 = (b.length - 1) + c := by omega
          rw [he, Nat.add_div_right _ hc]
          have h2 : (b.length - 1) / c = 0 := Nat.div_eq_of_lt (by omega)
          omega
        rw [h1]
        show (if 0 < b.length then [chunkFileName temp_path schema table k] else []) = _
        rw [if_pos hb]
        rfl
  | cons r rest ih =>
      constructor
      · intro k
        by_cases hc1 : c = 1
        · subst hc1
          show chunkFileName temp_path schema table (k + 1) ::
              extractCSVLoop temp_path schema table 1 rest (k + 1) none = _
          rw [ih.1 (k + 1)]
          have e1 : (rest.length + 1 - 1) / 1 = rest.length := by simp
          have e2 : (List.length (r :: rest) + 1 - 1) / 1 = rest.length + 1 := by
            simp [List.length_cons]
          rw [e1, e2,
            ← cons_range_map (fun i => chunkFileName temp_path schema table (k + 1 + i))
              rest.length]
          refine congrArg₂ List.cons ?_ (List.map_congr_left fun i _ => ?_)
          · exact congrArg (chunkFileName temp_path schema table) (by omega)
          · exact congrArg (chunkFileName temp_path schema table) (by omega)
        · have hnot : ¬ c ≤ List.length [r] := by
            simp only [List.length_singleton]
            omega
          simp only [extractCSVLoop]
          rw [if_neg hnot, ih.2 (k + 1) [r] (by simp)
            (by simp only [List.length_singleton, List.length_cons, List.length_nil]; omega)]
          have e : List.length [r] + rest.length + c - 1 =
              List.length (r :: rest) + c - 1 := by
            simp only [List.length_singleton, List.length_cons, List.length_nil]
            omega
          rw [e]
      · intro k b hb hbc
        by_cases h1 : c ≤ (b ++ [r]).length
        · have hlen : (b ++ [r]).length = b.length + 1 := by simp
          simp only [extractCSVLoop]
          rw [if_pos h1, ih.1 k]
          have e : b.length + List.length (r :: rest) + c - 1 =
              (rest.length + c - 1) + c := by
            simp only [List.length_cons]
            have hlc : b.length + 1 = c := by
              rw [← hlen]
              omega
            omega
          rw [e, Nat.add_div_right _ hc,
            ← cons_range_map (fun i => chunkFileName temp_path schema table (k + i))
              ((rest.length + c - 1) / c)]
          refine congrArg₂ List.cons ?_ (List.map_congr_left fun i _ => ?_)
          · exact congrArg (chunkFileName temp_path schema table) (by omega)
          · exact congrArg (chunkFileName temp_path schema table) (by omega)
        · have hlen : (b ++ [r]).length = b.length + 1 := by simp
          simp only [extractCSVLoop]
          rw [if_neg h1, ih.2 k (b ++ [r]) (by simp) (by omega)]
          have e : (b ++ [r]).length + rest.length + c - 1 =
              b.length + List.length (r :: rest) + c - 1 := by
            simp only [List.length_append, List.length_singleton, List.length_cons,
              List.length_nil]
            omega
          rw [e]

/-- Claim C4: for every base-table CSV extraction with positive chunk size
`c` over a cursor yielding the given rows, the extractor returns exactly
`⌈rows/c⌉` file paths, named with the 4-digit zero-padded chunk indices
`0001, 0002, ...` in strictly ascending order (file `i` carries index
`i + 1`); in particular no rows produce no files, and 250,000 rows with
`c = 100,000` produce exactly 3 files (the final short chunk is flushed). -/
theorem claimC4 {α : Type} (temp_path schema table : String) (c : Nat)
    (rows : List α) (hc : 0 < c) :
    extract_table_to_csv temp_path schema table c rows =
      (List.range ((rows.length + c - 1) / c)).map
        (fun i => chunkFileName temp_path schema table (i + 1)) ∧
    (extract_table_to_csv temp_path schema table c rows).length =
      (rows.length + c - 1) / c := by
  have h := (extractCSVLoop_spec temp_path schema table c hc rows).1 0
  constructor
  · rw [extract_table_to_csv, h]
    exact List.map_congr_left
      (fun i _ => congrArg (chunkFileName temp_path schema table) (by omega))
  · rw [extract_table_to_csv, h, List.length_map, List.length_range]

/-- Claim C4 witness: 5 rows with chunk size 2 produce exactly the 3 files
`..._chunk_0001/0002/0003.csv.gz`, and 0 rows produce no files. -/
theorem claimC4_witness :
    extract_table_to_csv "tmp" "s" "t" 2 ([0, 1, 2, 3, 4] : List Nat) =
      ["tmp/s_t_chunk_0001.csv.gz", "tmp/s_t_chunk_0002.csv.gz",
       "tmp/s_t_chunk_0003.csv.gz"] ∧
    extract_table_to_csv "tmp" "s" "t" 2 ([] : List Nat) = [] := by
  constructor
  · rw [(claimC4 "tmp" "s" "t" 2 ([0, 1, 2, 3, 4] : List Nat) (by decide)).1]
    rfl
  · rw [(claimC4 "tmp" "s" "t" 2 ([] : List Nat) (by decide)).1]
    rfl

-- §Logger and log persistence (src/backend/logger.py, migrator.py)

/-- Structured log entry built by `MigrationOrchestrator.log`
(migrator.py:41-55): `ts`, `run_id`, `level`, `category`, `message`, plus
the keyword arguments (modeled as string pairs). -/
structure LogEntry where
  ts : String
  run_id : String
  level : String
  category : String
  message : String
  kv : List (String × String)
  deriving DecidableEq, Repr

theorem data_mk (l : List Char) : (String.mk l).data = l := rfl

/-- One hexadecimal digit as emitted by `json.dumps` (lowercase). -/
def hexDigit (n : Nat) : Char :=
  if n < 10 then Char.ofNat (48 + n) else Char.ofNat (87 + n)

/-- Four-digit hexadecimal rendering used in `\uXXXX` escapes. -/
def hex4 (n : Nat) : List Char :=
  [hexDigit (n / 4096 % 16), hexDigit (n / 256 % 16), hexDigit (n / 16 % 16),
   hexDigit (n % 16)]

/-- Character escaping of Python `json.dumps` (default `ensure_ascii=True`):
quote and backslash are backslash-escaped, the common control characters get
short escapes, all other characters outside `0x20..0x7E` get `\uXXXX`
(basic-plane model), and everything else is emitted verbatim. -/
def jsonEscapeChar (c : Char) : List Char :=
  if c = '"' then ['\\', '"']
  else if c = '\\' then ['\\', '\\']
  else if c = '\n' then ['\\', 'n']
  else if c = '\t' then ['\\', 't']
  else if c = '\r' then ['\\', 'r']
  else if c = Char.ofNat 8 then ['\\', 'b']
  else if c = Char.ofNat 12 then ['\\', 'f']
  else if c.toNat < 32 ∨ 126 < c.toNat then '\\' :: 'u' :: hex4 c.toNat
  else [c]

/-- A JSON string literal: quoted, characters escaped. -/
def jsonStr (s : String) : String :=
  String.mk ('"' :: (s.data.flatMap jsonEscapeChar ++ ['"']))

/-- One `"key": "value"` member of the serialized object. -/
def jsonField (k v : String) : String :=
  jsonStr k ++ ": " ++ jsonStr v

/-- `json.dumps(entry)` for one log entry as serialized by
`MigrationOrchestrator.save_log` (migrator.py:57-63): keys in insertion
order `ts, run_id, level, category, message, **kwargs`. -/
def jsonLine (e : LogEntry) : String :=
  "\x7b" ++ jsonField "ts" e.ts ++ ", " ++ jsonField "run_id" e.run_id ++ ", " ++
    jsonField "level" e.level ++ ", " ++ jsonField "category" e.category ++ ", " ++
    jsonField "message" e.message ++
    (e.kv.map (fun p => ", " ++ jsonField p.1 p.2)).foldl (fun a b => a ++ b) "" ++
    "\x7d"

/-- `MigrationOrchestrator.log` (migrator.py:41-55): appends the raw entry to
`self.log_entries`; no redaction is applied to the stored entry (the
structlog side channel is separate). -/
def log_event (entries : List LogEntry) (e : LogEntry) : List LogEntry :=
  entries ++ [e]

/-- `MigrationOrchestrator.save_log` (migrator.py:57-63): writes
`json.dumps(entry)` for each stored entry, one line per entry, to
`run_log.ndjson`. -/
def save_log (entries : List LogEntry) : List String :=
  entries.map jsonLine

-- The regex redactor of logger.py (REDACTION_PATTERNS, redact_sensitive_data,
-- add_redaction), embedded as explicit scanners over character lists.

/-- Case-insensitive character comparison (`re.IGNORECASE`). -/
def chEqCI (a b : Char) : Bool :=
  a.toLower = b.toLower

/-- Case-insensitive literal match: on success returns the remaining input. -/
def matchCI : List Char → List Char → Option (List Char)
  | [], l => some l
  | _ :: _, [] => none
  | p :: ps, c :: cs => if chEqCI p c then matchCI ps cs else none

/-- Python regex `\s`: space, tab, newline, carriage return, vertical tab,
form feed. -/
def isWs (c : Char) : Bool :=
  c = ' ' ∨ c = '\t' ∨ c = '\n' ∨ c = '\r' ∨ c = Char.ofNat 11 ∨ c = Char.ofNat 12

/-- Matcher for `"key"\s*:\s*"[^"]*"` (logger.py:13-14) at the head of the
input; returns the matched length. -/
def jsonKeyMatcher (key : List Char) (l : List Char) : Option Nat :=
  match l with
  | [] => none
  | c :: rest =>
      if c = '"' then
        match matchCI key rest with
        | none => none
        | some r1 =>
            match r1 with
            | [] => none
            | q :: r2 =>
                if q = '"' then
                  match r2.dropWhile isWs with
                  | [] => none
                  | colon :: r4 =>
                      if colon = ':' then
                        match r4.dropWhile isWs with
                        | [] => none
                        | q2 :: r6 =>
                            if q2 = '"' then
                              match r6.dropWhile (fun d => d ≠ '"') with
                              | [] => none
                              | q3 :: r8 =>
                                  if q3 = '"' then some (l.length - r8.length) else none
                            else none
                      else none
                else none
      else none

/-- Matcher for `key=[^\s&]+` (logger.py:15-16) at the head of the input;
returns the matched length. -/
def kvMatcher (key : List Char) (l : List Char) : Option Nat :=
  match matchCI key l with
  | none => none
  | some r1 =>
      let v := r1.takeWhile (fun c => ¬ (isWs c ∨ c = '&'))
      if v.length = 0 then none else some (key.length + v.length)

/-- `re.sub` for the matchers above: scan left to right, replace each
non-overlapping leftmost match; fuel bounds the scan (one unit per input
character suffices since every match consumes at least one character). -/
def subGo (m : List Char → Option Nat) (repl : List Char) :
    Nat → List Char → List Char
  | 0, l => l
  | _ + 1, [] => []
  | fuel + 1, c :: rest =>
      match m (c :: rest) with
      | some k => repl ++ subGo m repl fuel (List.drop k (c :: rest))
      | none => c :: subGo m repl fuel rest

/-- `pattern.sub(replacement, s)` for one redaction pattern. -/
def reSub (m : List Char → Option Nat) (repl : String) (s : String) : String :=
  String.mk (subGo m repl.data s.data.length s.data)

/-- `redact_sensitive_data` (logger.py:20-24): the four `REDACTION_PATTERNS`
applied in order. -/
def redact_sensitive_data (msg : String) : String :=
  let s1 := reSub (jsonKeyMatcher "password".data)
    "\"password\": \"***REDACTED***\"" msg
  let s2 := reSub (jsonKeyMatcher "access_token".data)
    "\"access_token\": \"***REDACTED***\"" s1
  let s3 := reSub (kvMatcher "password=".data) "password=***REDACTED***" s2
  reSub (kvMatcher "token=".data) "token=***REDACTED***" s3

/-- `add_redaction` (logger.py:27-37): the structlog processor that redacts
every string value of the event dict.  It runs only in the structlog
console pipeline, not on the entries persisted by `save_log`. -/
def add_redaction (e : LogEntry) : LogEntry :=
  { ts := redact_sensitive_data e.ts, run_id := redact_sensitive_data e.run_id,
    level := redact_sensitive_data e.level,
    category := redact_sensitive_data e.category,
    message := redact_sensitive_data e.message,
    kv := e.kv.map (fun p => (p.1, redact_sensitive_data p.2)) }

/-- A character that `json.dumps` emits verbatim: printable ASCII other than
quote and backslash. -/
def jsonPlainChar (c : Char) : Bool :=
  decide (c ≠ '"' ∧ c ≠ '\\' ∧ 32 ≤ c.toNat ∧ c.toNat ≤ 126)

theorem jsonEscapeChar_plain (c : Char) (h : jsonPlainChar c = true) :
    jsonEscapeChar c = [c] := by
  have h4 := of_decide_eq_true h
  obtain ⟨h1, h2, h3, h5⟩ := h4
  have hn : c ≠ '\n' := fun hE => by subst hE; exact absurd h3 (by decide)
  have ht : c ≠ '\t' := fun hE => by subst hE; exact absurd h3 (by decide)
  have hr : c ≠ '\r' := fun hE => by subst hE; exact absurd h3 (by decide)
  have hb : c ≠ Char.ofNat 8 := fun hE => by subst hE; exact absurd h3 (by decide)
  have hf : c ≠ Char.ofNat 12 := fun hE => by subst hE; exact absurd h3 (by decide)
  have hu : ¬ (c.toNat < 32 ∨ 126 < c.toNat) := by omega
  simp only [jsonEscapeChar, if_neg h1, if_neg h2, if_neg hn, if_neg ht, if_neg hr,
    if_neg hb, if_neg hf, if_neg hu]

theorem flatMap_jsonEscape_plain (l : List Char)
    (h : ∀ c ∈ l, jsonPlainChar c = true) : l.flatMap jsonEscapeChar = l := by
  induction l with
  | nil => rfl
  | cons c rest ih =>
      rw [List.flatMap_cons, jsonEscapeChar_plain c (h c (List.mem_cons_self _ _)),
        ih (fun d hd => h d (List.mem_cons_of_mem _ hd))]
      rfl

theorem jsonLine_decomp (e : LogEntry) :
    (jsonLine e).data =
      ("\x7b" ++ jsonField "ts" e.ts ++ ", " ++ jsonField "run_id" e.run_id ++ ", " ++
        jsonField "level" e.level ++ ", " ++ jsonField "category" e.category ++ ", " ++
        jsonStr "message" ++ ": ").data ++
      ('"' :: (e.message.data.flatMap jsonEscapeChar ++ ['"'])) ++
      ((e.kv.map (fun p => ", " ++ jsonField p.1 p.2)).foldl (fun a b => a ++ b) "" ++
        "\x7d").data := by
  simp [jsonLine, jsonField, jsonStr, String.data_append, data_mk]

set_option maxRecDepth 16000

/-- Claim C5 (counterexample): the entry logged for a connection message that
contains the literal source password `hunter2`.  The persisted
`run_log.ndjson` record (`json.dumps` of the raw stored entry) contains
`hunter2` as a substring, even though the regex redactor — which `save_log`
never invokes — would have masked it. -/
theorem claimC5_counterexample :
    "hunter2".data <:+:
      (LogEntry.mk "2025-01-01T00:00:00" "r1" "INFO" "connect"
        "connecting with password=hunter2" []).message.data ∧
    "hunter2".data <:+:
      (jsonLine (LogEntry.mk "2025-01-01T00:00:00" "r1" "INFO" "connect"
        "connecting with password=hunter2" [])).data ∧
    redact_sensitive_data "connecting with password=hunter2" =
      "connecting with password=***REDACTED***" ∧
    ¬ "hunter2".data <:+:
      (add_redaction (LogEntry.mk "2025-01-01T00:00:00" "r1" "INFO" "connect"
        "connecting with password=hunter2" [])).message.data := by
  refine ⟨by decide, by decide, by rfl, by decide⟩

/-- Claim C5 (amended): entries persisted to `run_log.ndjson` by `save_log`
are serialized from the raw in-memory entries and never pass through the
regex redactor: any substring of the original message made of plain
printable characters — a literal password or OAuth token included — appears
verbatim as a substring of the persisted record. -/
theorem claimC5 (e : LogEntry) (s : String)
    (hplain : ∀ c ∈ s.data, jsonPlainChar c = true)
    (hinf : s.data <:+: e.message.data) :
    s.data <:+: (jsonLine e).data ∧
    (∀ entries : List LogEntry, save_log entries = entries.map jsonLine) := by
  constructor
  · obtain ⟨u, v, huv⟩ := hinf
    have hesc : s.data <:+: e.message.data.flatMap jsonEscapeChar := by
      refine ⟨u.flatMap jsonEscapeChar, v.flatMap jsonEscapeChar, ?_⟩
      rw [← huv, List.flatMap_append, List.flatMap_append,
        flatMap_jsonEscape_plain s.data hplain]
    rw [jsonLine_decomp]
    refine hesc.trans (List.IsInfix.trans ?_ (List.infix_append _ _ _))
    exact ⟨['"'], ['"'], rfl⟩
  · intro entries
    rfl

/-- Claim C5 witness: the amended theorem at the concrete logged password. -/
theorem claimC5_witness :
    "hunter2".data <:+:
      (jsonLine (LogEntry.mk "2025-01-01T00:00:00" "r1" "INFO" "connect"
        "connecting with password=hunter2" [])).data ∧
    (∀ entries : List LogEntry, save_log entries = entries.map jsonLine) :=
  claimC5 (LogEntry.mk "2025-01-01T00:00:00" "r1" "INFO" "connect"
      "connecting with password=hunter2" []) "hunter2"
    (by decide) (by decide)

-- §Type mapper (src/backend/snowflake_generator.py, TypeMapper)

/-- Python `str.lower` (ASCII fragment). -/
def pyLower (s : String) : String :=
  String.mk (s.data.map Char.toLower)

/-- Python `str.upper` (ASCII fragment). -/
def pyUpper (s : String) : String :=
  String.mk (s.data.map Char.toUpper)

/-- Python `str.startswith` for plain strings. -/
def startsWithStr (p s : String) : Bool :=
  p.data.isPrefixOf s.data

/-- `TypeMapper.TYPE_MAP` (snowflake_generator.py:17-82). -/
def TYPE_MAP : List (String × String) :=
  [("smallint", "NUMBER(5,0)"), ("integer", "NUMBER(10,0)"), ("bigint", "NUMBER(19,0)"),
   ("decimal", "NUMBER"), ("numeric", "NUMBER"), ("real", "FLOAT"),
   ("double precision", "FLOAT"), ("smallserial", "NUMBER(5,0)"),
   ("serial", "NUMBER(10,0)"), ("bigserial", "NUMBER(19,0)"), ("money", "NUMBER(19,4)"),
   ("character varying", "VARCHAR"), ("varchar", "VARCHAR"), ("character", "CHAR"),
   ("char", "CHAR"), ("text", "VARCHAR"), ("bytea", "BINARY"),
   ("timestamp without time zone", "TIMESTAMP_NTZ"),
   ("timestamp with time zone", "TIMESTAMP_TZ"), ("timestamp", "TIMESTAMP_NTZ"),
   ("timestamptz", "TIMESTAMP_TZ"), ("date", "DATE"),
   ("time without time zone", "TIME"), ("time with time zone", "TIME"),
   ("time", "TIME"), ("interval", "VARCHAR"), ("boolean", "BOOLEAN"),
   ("bool", "BOOLEAN"), ("json", "VARIANT"), ("jsonb", "VARIANT"),
   ("uuid", "VARCHAR(36)"), ("inet", "VARCHAR(45)"), ("cidr", "VARCHAR(45)"),
   ("macaddr", "VARCHAR(17)"), ("point", "VARCHAR"), ("line", "VARCHAR"),
   ("lseg", "VARCHAR"), ("box", "VARCHAR"), ("path", "VARCHAR"),
   ("polygon", "VARCHAR"), ("circle", "VARCHAR"), ("ARRAY", "VARIANT"),
   ("USER-DEFINED", "VARCHAR")]

/-- `TypeMapper.map_type` (snowflake_generator.py:84-137), branch for branch:
arrays, numeric/decimal with Python truthiness on the precision, character
types with truthiness on the declared length and the 16,777,216 ceiling,
text, the static map, `USER-DEFINED`, and the unknown-type fallback.  The
`â†’` in the standard-mapping rationale reproduces the literal bytes of the
source string. -/
def map_type (pg_type udt_name : String) (char_max_length : Option Nat)
    (numeric_precision : Option Nat) (numeric_scale : Option Nat) : String × String :=
  let pg_type_lower := pyLower pg_type
  if decide ("[]".data <:+: pg_type.data) || pg_type == "ARRAY" then
    ("VARIANT", "PostgreSQL array mapped to VARIANT for semi-structured storage")
  else if pg_type_lower == "numeric" || pg_type_lower == "decimal" then
    match numeric_precision, numeric_scale with
    | some p, some sc =>
        if p ≠ 0 then
          ("NUMBER(" ++ Nat.repr p ++ "," ++ Nat.repr sc ++ ")",
           "PostgreSQL " ++ pg_type ++ " with precision/scale preserved")
        else ("NUMBER(38,0)", "PostgreSQL " ++ pg_type ++ " with precision/scale preserved")
    | some p, none =>
        if p ≠ 0 then
          ("NUMBER(" ++ Nat.repr p ++ ",0)",
           "PostgreSQL " ++ pg_type ++ " with precision/scale preserved")
        else ("NUMBER(38,0)", "PostgreSQL " ++ pg_type ++ " with precision/scale preserved")
    | none, _ =>
        ("NUMBER(38,0)", "PostgreSQL " ++ pg_type ++ " with precision/scale preserved")
  else if ["character varying", "varchar", "character", "char"].contains pg_type_lower then
    match char_max_length with
    | some l =>
        if l ≠ 0 then
          if 16777216 < l then
            ("VARCHAR", "PostgreSQL " ++ pg_type ++ "(" ++ Nat.repr l ++
              ") exceeds Snowflake max; using VARCHAR(16777216)")
          else
            ("VARCHAR(" ++ Nat.repr l ++ ")", "PostgreSQL " ++ pg_type ++ " with length preserved")
        else ("VARCHAR", "PostgreSQL " ++ pg_type ++ " mapped to VARCHAR")
    | none => ("VARCHAR", "PostgreSQL " ++ pg_type ++ " mapped to VARCHAR")
  else if pg_type_lower == "text" then
    ("VARCHAR", "PostgreSQL TEXT mapped to VARCHAR (unlimited)")
  else
    match List.lookup pg_type_lower TYPE_MAP with
    | some sf_type => (sf_type, "Standard mapping: " ++ pg_type ++ " â†’ " ++ sf_type)
    | none =>
        if pg_type == "USER-DEFINED" then
          ("VARCHAR", "User-defined type (" ++ udt_name ++
            ") mapped to VARCHAR; consider adding validation")
        else ("VARCHAR", "Unknown type " ++ pg_type ++ " mapped to VARCHAR (needs review)")

/-- Claim C7: for every character-type column with a declared positive max
length, the mapper emits a bounded `VARCHAR(length)` when the length is at
most 16,777,216 (the bound included), and the unbounded `VARCHAR` together
with the warning rationale mentioning the exceeded ceiling when the length is
16,777,217 or more. -/
theorem claimC7 (t udt : String) (p sc : Option Nat) (l : Nat)
    (ht : t ∈ ["character varying", "varchar", "character", "char"]) (hl : 0 < l) :
    (l ≤ 16777216 → map_type t udt (some l) p sc =
      ("VARCHAR(" ++ Nat.repr l ++ ")", "PostgreSQL " ++ t ++ " with length preserved")) ∧
    (16777216 < l → map_type t udt (some l) p sc =
      ("VARCHAR", "PostgreSQL " ++ t ++ "(" ++ Nat.repr l ++
        ") exceeds Snowflake max; using VARCHAR(16777216)")) := by
  have hkey : map_type t udt (some l) p sc =
      (if l ≠ 0 then
        if 16777216 < l then
          ("VARCHAR", "PostgreSQL " ++ t ++ "(" ++ Nat.repr l ++
            ") exceeds Snowflake max; using VARCHAR(16777216)")
        else
          ("VARCHAR(" ++ Nat.repr l ++ ")", "PostgreSQL " ++ t ++ " with length preserved")
      else ("VARCHAR", "PostgreSQL " ++ t ++ " mapped to VARCHAR")) := by
    have h4 : t = "character varying" ∨ t = "varchar" ∨ t = "character" ∨ t = "char" := by
      simpa using ht
    rcases h4 with rfl | rfl | rfl | rfl <;> rfl
  rw [hkey, if_pos (show l ≠ 0 from by omega)]
  constructor
  · intro hle
    rw [if_neg (show ¬ 16777216 < l from by omega)]
  · intro hlt
    rw [if_pos hlt]

/-- Claim C7 witness: `varchar` at exactly the ceiling 16,777,216 stays
bounded, and at 16,777,217 becomes unbounded with the warning rationale. -/
theorem claimC7_witness :
    map_type "varchar" "" (some 16777216) none none =
      ("VARCHAR(16777216)", "PostgreSQL varchar with length preserved") ∧
    map_type "varchar" "" (some 16777217) none none =
      ("VARCHAR",
       "PostgreSQL varchar(16777217) exceeds Snowflake max; using VARCHAR(16777216)") := by
  constructor
  · have h := (claimC7 "varchar" "" none none 16777216 (by decide) (by decide)).1 (by decide)
    rw [h]
    rfl
  · have h := (claimC7 "varchar" "" none none 16777217 (by decide) (by decide)).2 (by decide)
    rw [h]
    rfl

-- §Catalog analyzer compatibility flags (src/backend/postgres_analyzer.py)

/-- Large-VARCHAR test of `PostgresAnalyzer._assess_compatibility`
(postgres_analyzer.py:524-527): type in `(character varying, text, varchar)`,
declared length truthy and greater than 16,000,000. -/
def largeVarcharFlag (col : PGColumn) : Bool :=
  if ["character varying", "text", "varchar"].contains col.data_type then
    match col.character_maximum_length with
    | some n => decide (n ≠ 0) && decide (16000000 < n)
    | none => false
  else false

/-- The `large_varchars` list accumulated by
`PostgresAnalyzer._assess_compatibility` (postgres_analyzer.py:474-543) over
all schemas, tables and columns, in iteration order.  The flags are advisory
report data: the assessment never raises. -/
def assess_large_varchars (schemas : List SchemaDetail) : List String :=
  schemas.flatMap (fun sch =>
    sch.tables.flatMap (fun t =>
      (t.columns.filter largeVarcharFlag).map
        (fun c => sch.schema_name ++ "." ++ t.table_name ++ "." ++ c.column_name)))

theorem largeVarcharFlag_iff (c : PGColumn) :
    largeVarcharFlag c = true ↔
      ((c.data_type = "character varying" ∨ c.data_type = "text" ∨
        c.data_type = "varchar") ∧
       ∃ n, c.character_maximum_length = some n ∧ 16000000 < n) := by
  unfold largeVarcharFlag
  constructor
  · intro h
    split at h
    case isTrue hc =>
      refine ⟨by simpa using List.elem_iff.mp hc, ?_⟩
      cases hm : c.character_maximum_length with
      | none => rw [hm] at h; cases h
      | some n =>
          rw [hm] at h
          have h2 := (Bool.and_eq_true _ _).mp h
          exact ⟨n, rfl, of_decide_eq_true h2.2⟩
    case isFalse hc => cases h
  · rintro ⟨hty, n, hn, hlt⟩
    have hc : (["character varying", "text", "varchar"].contains c.data_type) = true := by
      apply List.elem_iff.mpr
      simpa using hty
    rw [if_pos hc, hn]
    have h0 : n ≠ 0 := by omega
    simp [h0, hlt]

/-- Claim C9 (counterexample): a `character varying` column with declared
length 16,000,001 — which does not exceed the 16,777,216 VARCHAR ceiling —
is nevertheless flagged: the analyzer compares against 16,000,000, not
against the ceiling. -/
theorem claimC9_counterexample :
    largeVarcharFlag (PGColumn.mk "big_col" "character varying" "varchar"
      (some 16000001) none none "YES" "NO" none none none none none) = true ∧
    16000001 ≤ 16777216 := by
  constructor
  · rfl
  · decide

/-- Claim C9 (amended): a qualified column name is in the analyzer's
`large_varchars` compatibility list iff that column has type
`character varying`, `text` or `varchar` and a declared max length strictly
greater than 16,000,000 — a conservative threshold below the 16,777,216
VARCHAR ceiling; `character`/`char` columns are never flagged, and the flag
is advisory report data, never fatal. -/
theorem claimC9 (schemas : List SchemaDetail) (x : String) :
    x ∈ assess_large_varchars schemas ↔
      ∃ sch, sch ∈ schemas ∧ ∃ t, t ∈ sch.tables ∧ ∃ c,
        (c ∈ t.columns ∧
          ((c.data_type = "character varying" ∨ c.data_type = "text" ∨
            c.data_type = "varchar") ∧
           ∃ n, c.character_maximum_length = some n ∧ 16000000 < n)) ∧
        sch.schema_name ++ "." ++ t.table_name ++ "." ++ c.column_name = x := by
  simp only [assess_large_varchars, List.mem_flatMap, List.mem_map, List.mem_filter,
    largeVarcharFlag_iff]

-- §DDL generator (src/backend/snowflake_generator.py, SnowflakeGenerator)

/-- `CaseStyle` enum (models.py:25-29). -/
inductive CaseStyle where
  | upper
  | lower
  | preserve
  deriving DecidableEq, Repr

/-- The `.value` string of a `CaseStyle` member. -/
def caseStyleValue : CaseStyle → String
  | .upper => "UPPER"
  | .lower => "LOWER"
  | .preserve => "PRESERVE"

/-- `MigrationPreferences` (models.py:65-73); `format` is the string value of
the `DataFormat` str-enum, compared as a string by the generator. -/
structure MigrationPreferences where
  format : String
  max_chunk_mb : Nat
  parallelism : Nat
  use_identity_for_serial : Bool
  cluster_key_hints : List (String × List String)
  case_style : CaseStyle
  dry_run : Bool
  deriving DecidableEq, Repr

/-- Python `str.isalnum` on one character, ASCII fragment.  Python's
`str.isalnum` is Unicode-aware (it also accepts letters such as `é`); this
model is faithful on ASCII characters only, and the quoting theorem below
therefore carries an explicit ASCII hypothesis. -/
def pyIsAlnumChar (c : Char) : Bool :=
  c.isAlpha || c.isDigit

/-- Python `str.isalnum`: nonempty and every character alphanumeric. -/
def pyStrIsAlnum (l : List Char) : Bool :=
  !l.isEmpty && l.all pyIsAlnumChar

/-- The generator's `snowflake_reserved` set (snowflake_generator.py:164-166):
20 words, `ACCOUNT` through `DROP`.  (The analyzer keeps a different, longer
list that additionally contains `ORDER`.) -/
def genReservedWords : List String :=
  ["ACCOUNT", "ALL", "ALTER", "AND", "ANY", "AS", "BETWEEN", "BY", "CASE", "CAST",
   "CHECK", "COLUMN", "CONNECT", "COPY", "CREATE", "CURRENT", "DATABASE", "DELETE",
   "DISTINCT", "DROP"]

/-- `SnowflakeGenerator.normalize_identifier` (snowflake_generator.py:150-157). -/
def normalize_identifier (cs : CaseStyle) (name : String) : String :=
  match cs with
  | .upper => pyUpper name
  | .lower => pyLower name
  | .preserve => name

/-- `SnowflakeGenerator.quote_identifier` (snowflake_generator.py:159-170):
quote when the uppercased normalized name is in the 20-word reserved set or
`normalized.replace('_', '').isalnum()` is false. -/
def quote_identifier (cs : CaseStyle) (name : String) : String :=
  let normalized := normalize_identifier cs name
  if genReservedWords.contains (pyUpper normalized) ||
      !pyStrIsAlnum (normalized.data.filter (fun c => c ≠ '_')) then
    "\"" ++ normalized ++ "\""
  else normalized

/-- Python truthiness of an optional string (empty string is falsy). -/
def truthyStr : Option String → Bool
  | some s => !s.isEmpty
  | none => false

/-- Python `x or d` for an optional number (`None` and `0` fall back). -/
def truthyOr (o : Option Nat) (d : Nat) : Nat :=
  match o with
  | some n => if n = 0 then d else n
  | none => d

/-- Python `sep.join`. -/
def joinSep (sep : String) : List String → String
  | [] => ""
  | x :: xs => xs.foldl (fun a b => a ++ sep ++ b) x

/-- Python `.replace("'", "''")` used for comment escaping. -/
def escapeSingleQuotes (s : String) : String :=
  String.mk (s.data.flatMap (fun c => if c = '\'' then ['\'', '\''] else [c]))

/-- Python `.split('.')[-1]`. -/
def lastDotComponent (s : String) : String :=
  String.mk ((s.data.reverse.takeWhile (fun c => c ≠ '.')).reverse)

/-- `default_val.split("'")[1] if "'" in default_val else None`
(snowflake_generator.py:256): the text between the first two single quotes. -/
def extractQuoted (s : String) : Option String :=
  if s.data.contains '\'' then
    some (String.mk (((s.data.dropWhile (fun c => c ≠ '\'')).drop 1).takeWhile
      (fun c => c ≠ '\'')))
  else none

/-- Python `dict.get` over the cluster-key hints. -/
def lookupHint (hints : List (String × List String)) (k : String) :
    Option (List String) :=
  (hints.find? (fun p => p.1 == k)).map Prod.snd

/-- `MappingDecision` record appended per column
(snowflake_generator.py:276-286). -/
structure MappingDecision where
  schema : String
  table : String
  column : String
  postgres_type : String
  snowflake_type : String
  rationale : String
  nullable : Bool
  has_default : Bool
  is_identity : Bool
  deriving DecidableEq, Repr

/-- Improvement recommendation record (snowflake_generator.py:312-318); the
source field name is `type`. -/
structure Recommendation where
  rec_type : String
  table : String
  recommendation : String
  deriving DecidableEq, Repr

/-- One column line of `SnowflakeGenerator.generate_table_ddl`
(snowflake_generator.py:226-286) and its `MappingDecision`: type mapping,
identity / serial-sequence / `nextval(...)` default handling with Python
truthiness, `NOT NULL`, and the escaped comment. -/
def genColumnDef (prefs : MigrationPreferences) (schema_name table_name : String)
    (quotedSchema : String) (col : PGColumn) : String × MappingDecision :=
  let col_name := quote_identifier prefs.case_style col.column_name
  let mapped := map_type col.data_type col.udt_name col.character_maximum_length
    col.numeric_precision col.numeric_scale
  let sf_type := mapped.1
  let rationale := mapped.2
  let base := "    " ++ col_name ++ " " ++ sf_type
  let withDefault :=
    if col.is_identity == "YES" && prefs.use_identity_for_serial then
      base ++ " IDENTITY(" ++ Nat.repr (truthyOr col.identity_start 1) ++ ", " ++
        Nat.repr (truthyOr col.identity_increment 1) ++ ")"
    else if truthyStr col.serial_sequence then
      let seq_name := lastDotComponent (col.serial_sequence.getD "")
      base ++ " DEFAULT " ++ quotedSchema ++ "." ++
        quote_identifier prefs.case_style seq_name ++ ".NEXTVAL"
    else if truthyStr col.column_default then
      let default_val := col.column_default.getD ""
      if startsWithStr "nextval(" default_val then
        match extractQuoted default_val with
        | some seq_match =>
            let seq_name := lastDotComponent seq_match
            base ++ " DEFAULT " ++ quotedSchema ++ "." ++
              quote_identifier prefs.case_style seq_name ++ ".NEXTVAL"
        | none => base
      else if !startsWithStr "nextval" (pyLower default_val) then
        base ++ " DEFAULT " ++ default_val
      else base
    else base
  let withNotNull :=
    if col.is_nullable == "NO" then withDefault ++ " NOT NULL" else withDefault
  let withComment :=
    if truthyStr col.column_comment then
      withNotNull ++ " COMMENT '" ++ escapeSingleQuotes (col.column_comment.getD "") ++ "'"
    else withNotNull
  (withComment,
   { schema := schema_name, table := table_name, column := col.column_name,
     postgres_type := col.data_type, snowflake_type := sf_type,
     rationale := rationale, nullable := col.is_nullable == "YES",
     has_default := col.column_default.isSome,
     is_identity := col.is_identity == "YES" })

/-- `SnowflakeGenerator.generate_table_ddl` (snowflake_generator.py:208-334):
column lines, inline PK/unique constraints, cluster key or (for tables over
10 GiB without a hint) a `CLUSTER_KEY` recommendation, the table comment,
and the foreign keys as trailing comment lines.  The FK comment line reuses
the leaked loop variable `col_name` (the last column's quoted name; a
column-less table would raise `NameError` in the source, modeled as "").
The recommendation text's `.2f`-formatted GiB figure is floating-point
formatting and is not reproduced; the surrounding text is.  Returns the DDL,
the mapping decisions, and the recommendations appended during this walk. -/
def generate_table_ddl (prefs : MigrationPreferences) (schema_name : String)
    (t : TableDetail) : String × List MappingDecision × List Recommendation :=
  let schema := quote_identifier prefs.case_style schema_name
  let table := quote_identifier prefs.case_style t.table_name
  let full_table_name := schema ++ "." ++ table
  let pairs := t.columns.map (genColumnDef prefs schema_name t.table_name schema)
  let column_defs := pairs.map Prod.fst
  let column_mappings := pairs.map Prod.snd
  let ddl0 := "CREATE TABLE IF NOT EXISTS " ++ full_table_name ++ " (\n" ++
    joinSep ",\n" column_defs
  let ddl1 :=
    match t.constraints.primary_keys with
    | pk :: _ =>
        ddl0 ++ ",\n    CONSTRAINT " ++ quote_identifier prefs.case_style pk.constraint_name ++
          " PRIMARY KEY (" ++
          joinSep ", " (pk.columns.map (quote_identifier prefs.case_style)) ++ ")"
    | [] => ddl0
  let ddl2 := t.constraints.unique_keys.foldl
    (fun acc uk => acc ++ ",\n    CONSTRAINT " ++
      quote_identifier prefs.case_style uk.constraint_name ++ " UNIQUE (" ++
      joinSep ", " (uk.columns.map (quote_identifier prefs.case_style)) ++ ")") ddl1
  let ddl3 := ddl2 ++ "\n)"
  let clusterStep :=
    match lookupHint prefs.cluster_key_hints t.table_name with
    | some cols =>
        (ddl3 ++ "\nCLUSTER BY (" ++
          joinSep ", " (cols.map (quote_identifier prefs.case_style)) ++ ")",
         ([] : List Recommendation))
    | none =>
        if 10 * 1024 * 1024 * 1024 < t.table_metadata.total_size_bytes then
          (ddl3,
           [{ rec_type := "CLUSTER_KEY", table := full_table_name,
              recommendation := "Table " ++ full_table_name ++ " is very large. " ++
                "Consider adding a CLUSTER KEY on frequently filtered columns " ++
                "(e.g., date/timestamp columns) to improve query performance." }])
        else (ddl3, [])
  let ddl5 := clusterStep.1 ++ ";"
  let ddl6 :=
    if truthyStr t.table_metadata.table_comment then
      ddl5 ++ "\nCOMMENT ON TABLE " ++ full_table_name ++ " IS '" ++
        escapeSingleQuotes (t.table_metadata.table_comment.getD "") ++ "';"
    else ddl5
  let last_col_name :=
    match t.columns.getLast? with
    | some c => quote_identifier prefs.case_style c.column_name
    | none => ""
  let ddl7 :=
    match t.constraints.foreign_keys with
    | [] => ddl6
    | fks =>
        fks.foldl
          (fun acc fk => acc ++ "\n-- " ++
            quote_identifier prefs.case_style fk.constraint_name ++ ": " ++
            last_col_name ++ " REFERENCES " ++
            quote_identifier prefs.case_style fk.foreign_table_schema ++ "." ++
            quote_identifier prefs.case_style fk.foreign_table_name ++ "(" ++
            quote_identifier prefs.case_style fk.foreign_column_name ++ ")")
          (ddl6 ++
            "\n\n-- Foreign key constraints (for documentation; not enforced on standard tables):")
  (ddl7, column_mappings, clusterStep.2)

/-- `SnowflakeGenerator.generate_database_ddl` (snowflake_generator.py:172-183). -/
def generate_database_ddl (cs : CaseStyle) (database_name : String) : List String :=
  let db_name := quote_identifier cs database_name
  ["-- Database: " ++ db_name, "CREATE DATABASE IF NOT EXISTS " ++ db_name ++ ";",
   "USE DATABASE " ++ db_name ++ ";", ""]

/-- `SnowflakeGenerator.generate_schema_ddl` (snowflake_generator.py:185-195). -/
def generate_schema_ddl (cs : CaseStyle) (schema_name : String) : List String :=
  let schema := quote_identifier cs schema_name
  ["-- Schema: " ++ schema, "CREATE SCHEMA IF NOT EXISTS " ++ schema ++ ";", ""]

/-- `SnowflakeGenerator.generate_sequence_ddl` (snowflake_generator.py:197-206). -/
def generate_sequence_ddl (cs : CaseStyle) (schema_name : String)
    (seq : PGSequence) : String :=
  let schema := quote_identifier cs schema_name
  let seq_name := quote_identifier cs seq.sequence_name
  "CREATE SEQUENCE IF NOT EXISTS " ++ schema ++ "." ++ seq_name ++ " START = " ++
    Nat.repr (truthyOr seq.start_value 1) ++ " INCREMENT = " ++
    Nat.repr (truthyOr seq.increment 1) ++ ";"

/-- `SnowflakeGenerator.generate_view_ddl` (snowflake_generator.py:336-351). -/
def generate_view_ddl (cs : CaseStyle) (schema_name : String) (v : ViewDetail) : String :=
  let schema := quote_identifier cs schema_name
  let view_name := quote_identifier cs v.view_name
  "-- View: " ++ schema ++ "." ++ view_name ++ "\n" ++
    "-- Original PostgreSQL definition:\n" ++
    "-- " ++ v.view_definition ++ "\n" ++
    "-- TODO: Review and transform PostgreSQL-specific syntax for Snowflake\n" ++
    "-- CREATE OR REPLACE VIEW " ++ schema ++ "." ++ view_name ++ " AS\n" ++
    "-- <transformed_query>;\n"

/-- `SnowflakeGenerator.generate_stage_and_format`
(snowflake_generator.py:353-392). -/
def generate_stage_and_format (prefs : MigrationPreferences)
    (stage_name file_format_name : String) : List String :=
  let stage := quote_identifier prefs.case_style stage_name
  let file_format := quote_identifier prefs.case_style file_format_name
  let base := ["-- Internal stage for data loading",
    "CREATE STAGE IF NOT EXISTS " ++ stage ++ ";", ""]
  if prefs.format == "CSV" then
    base ++ ["-- File format for CSV",
      "CREATE FILE FORMAT IF NOT EXISTS " ++ file_format,
      "    TYPE = 'CSV'",
      "    COMPRESSION = 'GZIP'",
      "    FIELD_DELIMITER = ','",
      "    RECORD_DELIMITER = '\\n'",
      "    SKIP_HEADER = 1",
      "    FIELD_OPTIONALLY_ENCLOSED_BY = '\"'",
      "    TRIM_SPACE = TRUE",
      "    ERROR_ON_COLUMN_COUNT_MISMATCH = FALSE",
      "    ESCAPE = 'NONE'",
      "    ESCAPE_UNENCLOSED_FIELD = '\\\\'",
      "    DATE_FORMAT = 'AUTO'",
      "    TIMESTAMP_FORMAT = 'AUTO'",
      "    NULL_IF = ('\\\\N', 'NULL', 'null', '');",
      ""]
  else
    base ++ ["-- File format for Parquet",
      "CREATE FILE FORMAT IF NOT EXISTS " ++ file_format,
      "    TYPE = 'PARQUET'",
      "    COMPRESSION = 'SNAPPY';",
      ""]

/-- Instance state of `SnowflakeGenerator` (snowflake_generator.py:143-148):
the analysis model, the preferences, and the three accumulator lists. -/
structure SnowflakeGenerator where
  analysis : AnalysisResults
  preferences : MigrationPreferences
  mapping_decisions : List MappingDecision
  ddl_statements : List String
  improvement_recommendations : List Recommendation
  deriving Repr

/-- `SnowflakeGenerator.__init__`: empty accumulators. -/
def SnowflakeGenerator.init (analysis : AnalysisResults)
    (prefs : MigrationPreferences) : SnowflakeGenerator :=
  { analysis := analysis, preferences := prefs, mapping_decisions := [],
    ddl_statements := [], improvement_recommendations := [] }

/-- Snowflake target names passed to `generate_complete_ddl`
(migrator.py:150-154). -/
structure SnowflakeTargetCfg where
  database : String
  stage : String
  file_format : String
  deriving DecidableEq, Repr

/-- Table loop of `generate_complete_ddl` (snowflake_generator.py:429-433):
each table contributes its DDL and a blank line, and its mapping decisions
and recommendations in walk order. -/
def tablesWalk (prefs : MigrationPreferences) (schema_name : String) :
    List TableDetail → List String × List MappingDecision × List Recommendation
  | [] => ([], [], [])
  | t :: rest =>
      let one := generate_table_ddl prefs schema_name t
      let more := tablesWalk prefs schema_name rest
      (one.1 :: "" :: more.1, one.2.1 ++ more.2.1, one.2.2 ++ more.2.2)

/-- Schema loop of `generate_complete_ddl` (snowflake_generator.py:417-438):
schema DDL, sequences, tables, then views, per schema in order. -/
def schemasWalk (prefs : MigrationPreferences) :
    List SchemaDetail → List String × List MappingDecision × List Recommendation
  | [] => ([], [], [])
  | sch :: rest =>
      let seqLines :=
        (sch.sequences.map (generate_sequence_ddl prefs.case_style sch.schema_name)) ++ [""]
      let tbl := tablesWalk prefs sch.schema_name sch.tables
      let viewLines :=
        sch.views.flatMap (fun v => [generate_view_ddl prefs.case_style sch.schema_name v, ""])
      let more := schemasWalk prefs rest
      (generate_schema_ddl prefs.case_style sch.schema_name ++ seqLines ++ tbl.1 ++
        viewLines ++ more.1,
       tbl.2.1 ++ more.2.1, tbl.2.2 ++ more.2.2)

/-- `SnowflakeGenerator.generate_complete_ddl` (snowflake_generator.py:394-440):
header, database DDL, stage and file format, then the schema walk.  The walk
EXTENDS the instance-level `mapping_decisions` and
`improvement_recommendations` lists (`self.mapping_decisions.extend(...)`);
the DDL text is returned. -/
def generate_complete_ddl (cfg : SnowflakeTargetCfg) (g : SnowflakeGenerator) :
    SnowflakeGenerator × String :=
  let header :=
    ["-- =============================================================================",
     "-- Snowflake Migration DDL",
     "-- Generated: " ++ g.analysis.metadata.analysis_timestamp,
     "-- Source: PostgreSQL " ++ g.analysis.metadata.database,
     "-- =============================================================================",
     ""]
  let dbLines := generate_database_ddl g.preferences.case_style cfg.database
  let stgLines := generate_stage_and_format g.preferences cfg.stage cfg.file_format
  let walked := schemasWalk g.preferences g.analysis.schemas
  ({ g with mapping_decisions := g.mapping_decisions ++ walked.2.1,
            improvement_recommendations := g.improvement_recommendations ++ walked.2.2 },
   joinSep "\n" (header ++ dbLines ++ stgLines ++ walked.1))

/-- The mapping decisions produced by one complete walk of the analysis. -/
def walkDecisions (prefs : MigrationPreferences) (analysis : AnalysisResults) :
    List MappingDecision :=
  (schemasWalk prefs analysis.schemas).2.1

/-- The YAML document of `generate_mapping_decisions_yaml`
(snowflake_generator.py:442-453): metadata plus the instance-level
`mapping_decisions` list (modeled as the structured document that
`yaml.dump` serializes). -/
structure MappingYaml where
  generated : String
  source_database : String
  case_style : String
  mappings : List MappingDecision
  deriving Repr

def generate_mapping_decisions_yaml (g : SnowflakeGenerator) : MappingYaml :=
  { generated := g.analysis.metadata.analysis_timestamp,
    source_database := g.analysis.metadata.database,
    case_style := caseStyleValue g.preferences.case_style,
    mappings := g.mapping_decisions }

-- §Claims C6 and C10

theorem quote_len_ne (n : String) : n ≠ "\"" ++ n ++ "\"" := by
  intro h
  have hlen := congrArg String.length h
  rw [String.length_append, String.length_append,
    (show String.length "\"" = 1 from rfl)] at hlen
  omega

theorem quoteCondIff (u : String) (l : List Char) :
    (genReservedWords.contains u || !pyStrIsAlnum (l.filter (fun c => c ≠ '_'))) = true ↔
      (u ∈ genReservedWords ∨
       (∃ c ∈ l, ¬ (pyIsAlnumChar c = true ∨ c = '_')) ∨ (∀ c ∈ l, c = '_')) := by
  rw [Bool.or_eq_true, Bool.not_eq_true']
  constructor
  · rintro (h | h)
    · exact Or.inl (List.elem_iff.mp h)
    · right
      simp only [pyStrIsAlnum] at h
      rw [Bool.and_eq_false_iff] at h
      rcases h with h | h
      · right
        have hm : (l.filter (fun c => c ≠ '_')) = [] := by
          apply List.isEmpty_iff.mp
          cases hie : (l.filter (fun c => c ≠ '_')).isEmpty
          · rw [hie] at h
            cases h
          · rfl
        intro c hc
        by_contra hne
        have hmem : c ∈ l.filter (fun c => c ≠ '_') :=
          List.mem_filter.mpr ⟨hc, by simpa using hne⟩
        rw [hm] at hmem
        cases hmem
      · left
        obtain ⟨c, hcf, hcp⟩ := List.all_eq_false.mp h
        have hcl := List.mem_filter.mp hcf
        refine ⟨c, hcl.1, ?_⟩
        rintro (ha | ha)
        · exact hcp ha
        · exact absurd hcl.2 (by simp [ha])
  · rintro (h | h | h)
    · exact Or.inl (List.elem_iff.mpr h)
    · right
      obtain ⟨c, hcl, hbad⟩ := h
      have hcne : c ≠ '_' := fun hE => hbad (Or.inr hE)
      have hcal : pyIsAlnumChar c = false := by
        cases hca : pyIsAlnumChar c
        · rfl
        · exact absurd (Or.inl hca) hbad
      have hcf : c ∈ l.filter (fun c => c ≠ '_') :=
        List.mem_filter.mpr ⟨hcl, by simpa using hcne⟩
      simp only [pyStrIsAlnum]
      rw [Bool.and_eq_false_iff]
      right
      exact List.all_eq_false.mpr ⟨c, hcf, by simp [hcal]⟩
    · right
      have hm : l.filter (fun c => c ≠ '_') = [] :=
        List.filter_eq_nil_iff.mpr (fun c hc => by simp [h c hc])
      simp only [pyStrIsAlnum, hm]
      rfl

/-- Claim C6 (counterexample): a column named `ORDER` under the default
`UPPER` case style is emitted bare, not as `"ORDER"`: the generator's
20-word reserved list (`ACCOUNT` … `DROP`) does not contain `ORDER`. -/
theorem claimC6_counterexample :
    quote_identifier CaseStyle.upper "ORDER" = "ORDER" ∧
    quote_identifier CaseStyle.upper "ORDER" ≠ "\"ORDER\"" := by
  constructor
  · rfl
  · decide

/-- Claim C6 (amended): for identifiers made of ASCII characters — the
domain on which this embedding of Python's Unicode-aware `str.isalnum` /
`str.upper` / `str.lower` is faithful — the identifier is double-quoted
after case normalization iff its uppercase form is in the generator's
20-word reserved list (`ACCOUNT` … `DROP`, which omits `ORDER`), or it
contains a character outside `[A-Za-z0-9_]`, or it consists entirely of
underscores (the `replace('_','').isalnum()` test also fails on an empty
remainder); in particular a column named `ORDER` is emitted unquoted.
Identifiers containing non-ASCII alphanumerics (e.g. `café`) are accepted by
Python's `isalnum` and left unquoted although they contain characters
outside `[A-Za-z0-9_]`; they are outside this theorem's scope. -/
theorem claimC6 (cs : CaseStyle) (name : String)
    (_hascii : ∀ c ∈ name.data, c.toNat < 128) :
    quote_identifier cs name = "\"" ++ normalize_identifier cs name ++ "\"" ↔
      (pyUpper (normalize_identifier cs name) ∈ genReservedWords ∨
       (∃ c ∈ (normalize_identifier cs name).data,
          ¬ (pyIsAlnumChar c = true ∨ c = '_')) ∨
       (∀ c ∈ (normalize_identifier cs name).data, c = '_')) := by
  have hcond := quoteCondIff (pyUpper (normalize_identifier cs name))
    (normalize_identifier cs name).data
  by_cases h : (genReservedWords.contains (pyUpper (normalize_identifier cs name)) ||
      !pyStrIsAlnum ((normalize_identifier cs name).data.filter (fun c => c ≠ '_'))) = true
  · have hq : quote_identifier cs name = "\"" ++ normalize_identifier cs name ++ "\"" := by
      simp only [quote_identifier]
      rw [if_pos h]
    exact iff_of_true hq (hcond.mp h)
  · have hq : quote_identifier cs name = normalize_identifier cs name := by
      simp only [quote_identifier]
      rw [if_neg h]
    refine iff_of_false ?_ (fun hr => h (hcond.mpr hr))
    rw [hq]
    exact fun hE => quote_len_ne (normalize_identifier cs name) hE

/-- Claim C6 witness: the amended theorem at a concrete ASCII identifier
containing a space, which is emitted quoted. -/
theorem claimC6_witness :
    quote_identifier CaseStyle.upper "my col" =
      "\"" ++ normalize_identifier CaseStyle.upper "my col" ++ "\"" :=
  (claimC6 CaseStyle.upper "my col" (by decide)).mpr (by decide)

/-- Claim C10: the DDL emitter is stateful and its walk is not idempotent.
On one generator instance, every call to `generate_complete_ddl` appends that
walk's mapping decisions to the instance-level list, so after two calls over
the same analysis the mappings list returned by
`generate_mapping_decisions_yaml` is the walk's decision list twice over, and
every decision's occurrence count doubles. -/
theorem claimC10 (analysis : AnalysisResults) (prefs : MigrationPreferences)
    (cfg : SnowflakeTargetCfg) :
    (generate_mapping_decisions_yaml
        (generate_complete_ddl cfg
          (generate_complete_ddl cfg (SnowflakeGenerator.init analysis prefs)).1).1).mappings =
      walkDecisions prefs analysis ++ walkDecisions prefs analysis ∧
    ∀ d : MappingDecision,
      List.count d (generate_mapping_decisions_yaml
          (generate_complete_ddl cfg
            (generate_complete_ddl cfg
              (SnowflakeGenerator.init analysis prefs)).1).1).mappings =
        2 * List.count d (walkDecisions prefs analysis) := by
  have key : (generate_mapping_decisions_yaml
      (generate_complete_ddl cfg
        (generate_complete_ddl cfg (SnowflakeGenerator.init analysis prefs)).1).1).mappings =
      ([] ++ walkDecisions prefs analysis) ++ walkDecisions prefs analysis := rfl
  constructor
  · rw [key, List.nil_append]
  · intro d
    rw [key, List.nil_append, List.count_append, Nat.two_mul]
